import Mathlib

/-!
# Verification of the hardy retrying HTTP client

A shallow embedding of the retry core of the `hardy` library: the backoff
interval calculation (`getInterval`), the configuration options
(`WithMaxRetries`, `WithBackoffMultiplier`, ...), the attempt loop
(`Client.sendRequest`, modelled by `sendStep` / `sendRequestLoop`), and the
channel race in `Client.Try` (modelled by `Try` over a `FirstEvent`).

Conventions used throughout:

* Go `int64` / `time.Duration` values are `Int` together with an explicit
  two's-complement wrap `wrap64` at every arithmetic step that Go performs
  on `int64` (Go signed integer arithmetic wraps).
* External capabilities (the transport `http.Client.Do`, the caller's
  `ReaderFunc`, `req.GetBody`, `httputil.DumpRequest/DumpResponse`,
  `resp.Body.Close`, the `rand.Intn(1000)` jitter draw) are parameters of
  the model, indexed by the loop iteration where the code consults them.
* The goroutine/channel structure of `Try` is modelled by recording every
  channel send of the loop in an event trace; the `select` in `Try`
  receives the first such send unless the context is done earlier, which
  is the `FirstEvent.ctxDone` case.
-/

set_option maxHeartbeats 1000000

namespace Hardy

/-- Two's-complement wrap of an integer into the signed 64-bit range
`[-2^63, 2^63)`, the semantics of Go `int64` arithmetic (which wraps on
overflow). -/
def wrap64 (x : Int) : Int := (x + 2 ^ 63) % 2 ^ 64 - 2 ^ 63


/-- Go `time.Duration.Milliseconds()`: `int64(d) / 1e6` with Go integer
division, which truncates toward zero. -/
def Duration.milliseconds (d : Int) : Int := Int.tdiv d 1000000

/-- Model of `int64(math.Pow(float64(m), float64(attempt)))` from `getInterval`,
modelled for natural-number multipliers: when `m ^ attempt < 2 ^ 53` the
`float64` computation is exact (every such integer is exactly representable
and `math.Pow` is exact on exactly-representable integral powers in this
range) and the conversion to `int64` is the identity, so the model below is
the value the Go code computes.  Every theorem about `getInterval` either
carries this bound as a hypothesis or instantiates a power of two below
`2 ^ 63`, where exactness also holds. -/
def mathPowInt64 (m : ℕ) (attempt : ℕ) : Int := (m : Int) ^ attempt

/-- The function `getInterval(waitInterval, maxInterval time.Duration, attempt int,
multiplier float64) time.Duration` (identical in the v1 client and as the
`Client.getInterval` method of the consolidated client):

```go
rand.Seed(time.Now().UnixNano())
backoff := waitInterval.Milliseconds() * int64(math.Pow(multiplier, float64(attempt)))
random := int64(rand.Intn(1000))
totalInterval := time.Duration(backoff+random) * time.Millisecond
if maxInterval == 0 { return totalInterval }
if totalInterval > maxInterval { return maxInterval }
return totalInterval
```

The random draw `rand.Intn(1000)` is the `jitter` parameter (an integer in
`[0, 1000)`); each `int64` multiplication and addition wraps. -/
def getInterval (waitInterval maxInterval : Int) (attempt : ℕ) (multiplier : ℕ)
    (jitter : Int) : Int :=
  let backoff := wrap64 (Duration.milliseconds waitInterval * mathPowInt64 multiplier attempt)
  let random := jitter
  let totalInterval := wrap64 (wrap64 (backoff + random) * 1000000)
  if maxInterval = 0 then totalInterval
  else if totalInterval > maxInterval then maxInterval
  else totalInterval

/-- The well-known error codes of `errors.go` (`ErrorCode` constants). -/
inductive ErrorCode
  | invalidClientConfiguration
  | noDebuggerFound
  | noHTTPClientFound
  | noReaderFuncFound
  | maxRetriesReached
  | unexpected
  deriving DecidableEq, Repr

/-- The reason carried by a done `context.Context`: `context.Canceled` or
`context.DeadlineExceeded`. -/
inductive CtxReason
  | canceled
  | deadlineExceeded
  deriving DecidableEq, Repr

/-- A Go `error` value as the hardy code produces and forwards them:

* `code c` — a bare `ErrorCode` (e.g. `errChan <- ErrMaxRetriesReached`);
* `structured c cause` — `newError(c, withCause(cause))` from `errors.go`
  (every `newError` call in the modelled paths supplies a cause);
* `attemptWrap n e` — `fmt.Errorf("unexpected error during attempt %d: %w", n, e)`;
* `ctx r` — a context error (`ctx.Err()`, or an error produced by a
  transport call whose request context is done);
* `external n` — an opaque error owned by a caller-supplied capability
  (reader function, fallback, `GetBody`, dump, close, transport). -/
inductive GoErr
  | code (c : ErrorCode)
  | structured (c : ErrorCode) (cause : GoErr)
  | attemptWrap (n : Int) (e : GoErr)
  | ctx (r : CtxReason)
  | external (n : ℕ)
  deriving DecidableEq, Repr

/-- Builds `newError(ErrUnexpected, withCause(e))`. -/
def mkUnexpected (e : GoErr) : GoErr := .structured .unexpected e

/-- Builds `newError(ErrUnexpected, withCause(fmt.Errorf("unexpected error during
attempt %d: %w", n, e)))` — the fatal error built when `httpClient.Do`
fails on an attempt. -/
def mkDoError (n : Int) (e : GoErr) : GoErr := .structured .unexpected (.attemptWrap n e)

/-- An HTTP response, opaque to the retry core (only the caller's reader
function inspects it). -/
abbrev Response := ℕ

/-- A request body produced by `req.GetBody()`, opaque to the retry core. -/
abbrev Body := ℕ

/-- The consolidated `Client` configuration state (the fields of the
`Client` struct that the retry machinery reads; the capability handles
`httpClient`, `debugger` and the `userAgent` string are modelled as the
explicit function parameters of the loop model below). The `multiplier`
field is a `float64`; it is modelled by the rational it denotes, which is
faithful for the comparisons and assignments performed on it. -/
structure Client where
  waitInterval : Int
  maxRetries : Int
  maxInterval : Int
  multiplier : ℚ
  debug : Bool
  withUserAgentHeader : Bool
  deriving DecidableEq, Repr

/-- Constant `DefaultWaitIntervalMilliseconds = 500`. -/
def DefaultWaitIntervalMilliseconds : Int := 500

/-- Constant `DefaultMaxIntervalInMilliseconds = 5000`. -/
def DefaultMaxIntervalInMilliseconds : Int := 5000

/-- Constant `DefaultMaxRetries = 3`. -/
def DefaultMaxRetries : Int := 3

/-- Constant `DefaultBackoffMultiplier = 2`. -/
def DefaultBackoffMultiplier : ℚ := 2

/-- One millisecond in `time.Duration` units (nanoseconds). -/
def millisecond : Int := 1000000

/-- The configuration part of `NewClient` (the client built before options
are applied): default wait interval 500 ms, max interval 5000 ms, 3 max
retries, multiplier 2, debug on, User-Agent header on. -/
def NewClient : Client :=
  { waitInterval := DefaultWaitIntervalMilliseconds * millisecond
    maxInterval := DefaultMaxIntervalInMilliseconds * millisecond
    maxRetries := DefaultMaxRetries
    multiplier := DefaultBackoffMultiplier
    debug := true
    withUserAgentHeader := true }

/-- Option `WithMaxRetries(maxRetries int)`: stores the given value unconditionally
and never returns an error (no validation of non-positive values). -/
def WithMaxRetries (maxRetries : Int) (c : Client) : Client × Option GoErr :=
  ({ c with maxRetries := maxRetries }, none)

/-- Option `WithWaitInterval(interval time.Duration)`: stores the value, no error. -/
def WithWaitInterval (interval : Int) (c : Client) : Client × Option GoErr :=
  ({ c with waitInterval := interval }, none)

/-- Option `WithMaxInterval(interval time.Duration)`: stores the value, no error. -/
def WithMaxInterval (interval : Int) (c : Client) : Client × Option GoErr :=
  ({ c with maxInterval := interval }, none)

/-- Option `WithBackoffMultiplier(multiplier float64)`:

```go
if multiplier < DefaultBackoffMultiplier { return nil }
c.multiplier = multiplier
return nil
```

A multiplier below 2.0 is silently ignored (the client keeps its previous
multiplier and no error is returned); otherwise it is stored.  The v1
`Client.WithMultiplier` of `hardy.go` has the same guard. -/
def WithBackoffMultiplier (multiplier : ℚ) (c : Client) : Client × Option GoErr :=
  if multiplier < DefaultBackoffMultiplier then (c, none)
  else ({ c with multiplier := multiplier }, none)

/-- Observable actions of one `sendRequest` goroutine, in program order:

* `errSend e` — `errChan <- e` (the channel has capacity 1, so the first
  such send is the one `Try`'s `select` can receive);
* `resultSend` — `resultChan <- struct{}{}`;
* `transportCall i body` — `c.httpClient.Do(clonedReq)` on iteration `i`,
  with `body` the `clonedReq.Body` assigned for that attempt (`none` for a
  body-less request, and also when `req.GetBody()` failed, since the code
  then assigns the nil body anyway);
* `readerCall i resp` — `readerFunc(resp)` on iteration `i`;
* `bodyClose i failed` — `resp.Body.Close()` on iteration `i`, with
  `failed` recording whether the close returned an error;
* `timerWait d` — `<-time.NewTimer(d).C`, the fixed (context-oblivious)
  inter-attempt wait. -/
inductive Event
  | errSend (e : GoErr)
  | resultSend
  | transportCall (i : ℕ) (body : Option Body)
  | readerCall (i : ℕ) (resp : Response)
  | bodyClose (i : ℕ) (failed : Bool)
  | timerWait (d : Int)
  deriving DecidableEq, Repr

/-- The environment of one `Client.sendRequest` call: the client
configuration together with the external capabilities the loop consults,
indexed by the iteration on which they are consulted.

* `dumpReqErr i` / `dumpRespErr i` — the error (if any) returned by
  `httputil.DumpRequest(req, true)` / `httputil.DumpResponse(resp, true)`
  on iteration `i` (consulted only when `debug` is set);
* `hasBody` — whether `req.Body != nil`;
* `getBody i` — the result of `req.GetBody()` on iteration `i`;
* `transport i body` — the result of `c.httpClient.Do` for iteration `i`
  when the cloned request carries `body`;
* `readerFunc resp` — the caller's `ReaderFunc` (`none` = accept,
  `some e` = the non-nil error that asks for a retry);
* `closeErr i` — the result of `resp.Body.Close()` on iteration `i`;
* `jitter i` — the `rand.Intn(1000)` draw inside the `getInterval` call
  made at the end of iteration `i`. -/
structure LoopEnv where
  waitInterval : Int
  maxRetries : Int
  maxInterval : Int
  multiplier : ℕ
  debug : Bool
  dumpReqErr : ℕ → Option GoErr
  dumpRespErr : ℕ → Option GoErr
  hasBody : Bool
  getBody : ℕ → Except GoErr Body
  transport : ℕ → Option Body → Except GoErr Response
  readerFunc : Response → Option GoErr
  closeErr : ℕ → Option GoErr
  jitter : ℕ → Int

/-- How a `sendRequest` run ends: a terminal send on `errChan`, a terminal
send on `resultChan`, or fuel exhaustion (the loop is still running after
the given number of iterations). -/
inductive LoopExit
  | errSent (e : GoErr)
  | resultSent
  | fuelOut
  deriving DecidableEq, Repr

/-- Result of one loop iteration: `exit` when the iteration executes a
`return`, `next a` when it falls through to the next iteration with the
attempt counter now equal to `a`. -/
inductive StepRes
  | exit (x : LoopExit)
  | next (attempt : Int)
  deriving DecidableEq, Repr

/-- The `Clone`/`GetBody` block of `Client.sendRequest`:

```go
clonedReq := req.Clone(ctx)
if req.Body != nil {
    clonedBody, err := req.GetBody()
    if err != nil {
        errChan <- newError(ErrUnexpected, withCause(err))
    }
    clonedReq.Body = clonedBody
}
```

On a `GetBody` error the code sends on `errChan` but does **not** return;
it falls through, assigning the nil `clonedBody`, so the attempt proceeds
with body `none`. -/
def cloneBody (env : LoopEnv) (i : ℕ) : List Event × Option Body :=
  if env.hasBody then
    match env.getBody i with
    | .error e => ([.errSend (mkUnexpected e)], none)
    | .ok b => ([], some b)
  else ([], none)

/-- The `DumpResponse` block: when `debug` is set and the dump fails, the
code sends `ErrUnexpected` on `errChan` but does **not** return (it goes on
to print and to call the reader function). -/
def dumpRespEvents (env : LoopEnv) (i : ℕ) : List Event :=
  if env.debug then
    match env.dumpRespErr i with
    | some e => [.errSend (mkUnexpected e)]
    | none => []
  else []

/-- One iteration of the `for` loop of the consolidated
`Client.sendRequest`, entered with the attempt counter equal to `attempt`
(the counter starts at 0 and each previous iteration incremented it once,
so the iteration index used for the capability functions is
`attempt.toNat`):

1. if `debug`: `httputil.DumpRequest`; on error, send `ErrUnexpected` and
   `return`;
2. clone the request and prepare the body (`cloneBody`);
3. `resp, err := c.httpClient.Do(clonedReq)`; on error, send the wrapped
   `ErrUnexpected` (mentioning attempt `attempt+1`) and `return`;
4. if `debug`: `httputil.DumpResponse`; on error, send `ErrUnexpected`
   (and fall through);
5. `err = readerFunc(resp)`, then close the response body (a close error
   is only printed to the debugger);
6. if the reader accepted: send on `resultChan` and `return`;
7. `attempt++` (Go `int` increment, wrapping); if the counter now equals
   `maxRetries`: send `ErrMaxRetriesReached` and `return`;
8. wait on a fresh timer for
   `getInterval(waitInterval, maxInterval, attempt+1, multiplier)` and
   re-enter the loop. -/
def sendStep (env : LoopEnv) (attempt : Int) : List Event × StepRes :=
  let i := attempt.toNat
  match (if env.debug then env.dumpReqErr i else none) with
  | some e => ([.errSend (mkUnexpected e)], .exit (.errSent (mkUnexpected e)))
  | none =>
    let bodyStep := cloneBody env i
    match env.transport i bodyStep.2 with
    | .error e =>
        let fatal := mkDoError (attempt + 1) e
        (bodyStep.1 ++ [.transportCall i bodyStep.2, .errSend fatal], .exit (.errSent fatal))
    | .ok resp =>
        let pre := bodyStep.1 ++ [.transportCall i bodyStep.2] ++ dumpRespEvents env i
        let closeFailed := (env.closeErr i).isSome
        let core := pre ++ [.readerCall i resp, .bodyClose i closeFailed]
        match env.readerFunc resp with
        | none => (core ++ [.resultSend], .exit .resultSent)
        | some _ =>
          let attempt' := wrap64 (attempt + 1)
          if attempt' = env.maxRetries then
            (core ++ [.errSend (.code .maxRetriesReached)],
             .exit (.errSent (.code .maxRetriesReached)))
          else
            (core ++ [.timerWait (getInterval env.waitInterval env.maxInterval
                (wrap64 (attempt' + 1)).toNat env.multiplier (env.jitter i))],
             .next attempt')

/-- The `for` loop of `Client.sendRequest`, run for at most `fuel`
iterations from attempt counter `attempt`; returns the event trace and how
the run ended. -/
def sendRequestLoop (env : LoopEnv) : ℕ → Int → List Event × LoopExit
  | 0, _ => ([], .fuelOut)
  | fuel + 1, attempt =>
    match sendStep env attempt with
    | (evs, .exit x) => (evs, x)
    | (evs, .next a) =>
      let rest := sendRequestLoop env fuel a
      (evs ++ rest.1, rest.2)

/-- Function `Client.sendRequest`: the loop entered with `attempt := 0`. -/
def sendRequest (env : LoopEnv) (fuel : ℕ) : List Event × LoopExit :=
  sendRequestLoop env fuel 0

/-- Is this event a `transportCall`? -/
def isTransportCall : Event → Bool
  | .transportCall _ _ => true
  | _ => false

/-- Number of `httpClient.Do` invocations recorded in a trace. -/
def transportCalls (tr : List Event) : ℕ := tr.countP isTransportCall

/-- Which arm of the `select` in `Client.Try` fires first.  The `select`
races `errChan`, `ctx.Done()` and `resultChan`; a context that is done
before the goroutine's first channel send is the `ctxDone` case, otherwise
the first send of the loop trace is received (`errReceived`/
`resultReceived`). -/
inductive FirstEvent
  | errReceived (e : GoErr)
  | ctxDone (r : CtxReason)
  | resultReceived
  deriving DecidableEq, Repr

/-- The first event `Try`'s `select` can observe on its two channels when
the context does not win the race: the first `errChan`/`resultChan` send of
the trace (both channels are buffered with capacity 1, so the first send
goes through and is the one received). -/
def firstChannelEvent : List Event → Option FirstEvent
  | [] => none
  | .errSend e :: _ => some (.errReceived e)
  | .resultSend :: _ => some (.resultReceived)
  | _ :: rest => firstChannelEvent rest

/-- The `select` of `Client.Try` together with the preceding
reader-function guard:

```go
if readerFunc == nil { return ErrNoReaderFuncFound }
...
select {
case err := <-errChan:
    if fallbackFunc != nil { return fallbackFunc() }
    return err
case <-ctx.Done():
    return ctx.Err()
case <-resultChan:
    return nil
}
```

`readerGiven` is whether a reader function was supplied; `fallbackFunc` is
the optional fallback (returning `none` for a nil error).  The result is
the error `Try` returns (`none` = nil) paired with whether the fallback
was invoked.  (The User-Agent header mutation and the debug print between
the guard and the `select` do not affect the returned value and are not
modelled.) -/
def Try (readerGiven : Bool) (fallbackFunc : Option (Unit → Option GoErr))
    (first : FirstEvent) : Option GoErr × Bool :=
  if readerGiven = false then (some (.code .noReaderFuncFound), false)
  else
    match first with
    | .errReceived e =>
      match fallbackFunc with
      | some f => (f (), true)
      | none => (some e, false)
    | .ctxDone r => (some (.ctx r), false)
    | .resultReceived => (none, false)

/-- Environment of a run whose transport always yields a response and whose
reader function always asks for a retry, on a client with max retries 4 and
the default intervals (debug off, no request body). -/
def envAlwaysRetry : LoopEnv :=
  { waitInterval := 500 * millisecond
    maxRetries := 4
    maxInterval := 5000 * millisecond
    multiplier := 2
    debug := false
    dumpReqErr := fun _ => none
    dumpRespErr := fun _ => none
    hasBody := false
    getBody := fun _ => Except.ok 0
    transport := fun _ _ => Except.ok 200
    readerFunc := fun _ => some (.external 1)
    closeErr := fun _ => none
    jitter := fun _ => 0 }

/-- As `envAlwaysRetry`, but the transport itself fails on every attempt
(connection-level failure). -/
def envFatalFirst : LoopEnv :=
  { envAlwaysRetry with transport := fun _ _ => Except.error (.external 7) }

/-- As `envAlwaysRetry`, but the context is cancelled during the first
backoff wait: attempt 0 completes normally (and the reader asks for a
retry); from attempt 1 on, the transport sees the cancelled context of the
cloned request and fails with it. -/
def envCancelled : LoopEnv :=
  { envAlwaysRetry with
    transport := fun i _ => if i = 0 then Except.ok 200 else Except.error (.ctx .canceled) }

/-- As `envAlwaysRetry`, but the request has a body and `req.GetBody`
fails on every attempt. -/
def envBodyErr : LoopEnv :=
  { envAlwaysRetry with hasBody := true, getBody := fun _ => Except.error (.external 3) }

/-- As `envAlwaysRetry`, but `resp.Body.Close()` fails on the first
attempt. -/
def envCloseFail : LoopEnv :=
  { envAlwaysRetry with closeErr := fun i => if i = 0 then some (.external 9) else none }

/-- As `envAlwaysRetry`, but with max retries 0 (as `WithMaxRetries(0)`
stores it). -/
def envZeroRetries : LoopEnv := { envAlwaysRetry with maxRetries := 0 }

/-- Erase the `failed` flag of `bodyClose` events (used to compare traces
of runs that differ only in the outcome of `resp.Body.Close()`). -/
def scrubClose : Event → Event
  | .bodyClose i _ => .bodyClose i false
  | e => e

end Hardy

namespace Hardy

/-! ## Arithmetic helper lemmas -/

theorem wrap64_eq_self {x : Int} (h₁ : -(2 ^ 63) ≤ x) (h₂ : x < 2 ^ 63) : wrap64 x = x := by
  unfold wrap64
  simp only [show ((2 : Int) ^ 63 = 9223372036854775808) from by norm_num,
    show ((2 : Int) ^ 64 = 18446744073709551616) from by norm_num] at h₁ h₂ ⊢
  rw [Int.emod_eq_of_lt (by omega) (by omega)]
  omega

/-- When no intermediate `int64` computation overflows, `getInterval`
computes the clamped backoff-plus-jitter formula exactly. -/
theorem getInterval_eval (wi mi : Int) (a m : ℕ) (j : Int)
    (hj0 : 0 ≤ j) (hj : j < 1000) (hwi : 0 ≤ wi)
    (hbound : (Duration.milliseconds wi * (m : Int) ^ a + j) * 1000000 < 2 ^ 63) :
    getInterval wi mi a m j =
      if mi = 0 then (Duration.milliseconds wi * (m : Int) ^ a + j) * 1000000
      else if (Duration.milliseconds wi * (m : Int) ^ a + j) * 1000000 > mi then mi
      else (Duration.milliseconds wi * (m : Int) ^ a + j) * 1000000 := by
  have hms : 0 ≤ Duration.milliseconds wi := Int.tdiv_nonneg hwi (by norm_num)
  have hB : 0 ≤ Duration.milliseconds wi * (m : Int) ^ a :=
    mul_nonneg hms (pow_nonneg (Int.natCast_nonneg m) a)
  set B := Duration.milliseconds wi * (m : Int) ^ a with hBdef
  have hBj : 0 ≤ B + j := by omega
  have hle : B + j ≤ (B + j) * 1000000 := le_mul_of_one_le_right hBj (by norm_num)
  have h1 : B + j < 2 ^ 63 := lt_of_le_of_lt hle hbound
  have hneg : -(2 ^ 63 : Int) ≤ 0 := by norm_num
  have w1 : wrap64 B = B := wrap64_eq_self (le_trans hneg hB) (by omega)
  have w2 : wrap64 (B + j) = B + j := wrap64_eq_self (le_trans hneg hBj) h1
  have w3 : wrap64 ((B + j) * 1000000) = (B + j) * 1000000 :=
    wrap64_eq_self (le_trans hneg (mul_nonneg hBj (by norm_num))) hbound
  simp only [getInterval, mathPowInt64, ← hBdef]
  rw [w1, w2, w3]

/-- Claim C4 (amended): for nonnegative base interval, jitter in
`[0, 1000)` ms, an integral multiplier whose power is exactly representable
in `float64` (`m ^ attempt < 2 ^ 53`), and a total that fits `int64` after
the conversion to nanoseconds, the computed inter-attempt interval equals
`base_ms · multiplier ^ attempt + jitter` milliseconds; if
`max_interval > 0` and this total exceeds it the result is clamped to
`max_interval`, and if `max_interval = 0` the uncapped total is returned.
(The original claim, quantified over *every* attempt and configuration,
fails under `int64` overflow: see the counterexample theorem.) -/
theorem getInterval_matches_backoff_formula (wi mi : Int) (a m : ℕ) (j : Int)
    (hj0 : 0 ≤ j) (hj : j < 1000) (hwi : 0 ≤ wi)
    (_hpow : (m : Int) ^ a < 2 ^ 53)
    (hbound : (Duration.milliseconds wi * (m : Int) ^ a + j) * 1000000 < 2 ^ 63) :
    getInterval wi mi a m j =
      if mi = 0 then (Duration.milliseconds wi * (m : Int) ^ a + j) * 1000000
      else if (Duration.milliseconds wi * (m : Int) ^ a + j) * 1000000 > mi then mi
      else (Duration.milliseconds wi * (m : Int) ^ a + j) * 1000000 :=
  getInterval_eval wi mi a m j hj0 hj hwi hbound

/-- Claim C4 witness: base 3 ms, multiplier 2, attempt 2, jitter 7,
cap 3 s — the formula gives (3·4+7) ms = 19000000 ns, under the cap. -/
theorem getInterval_matches_backoff_formula_witness :
    getInterval 3000000 3000000000 2 2 7 = 19000000 := by
  have h := getInterval_matches_backoff_formula 3000000 3000000000 2 2 7
    (by norm_num) (by norm_num) (by norm_num) (by norm_num) (by decide)
  simpa using h

/-- Claim C4 counterexample: with the default 500 ms base interval,
multiplier 2, attempt 40, jitter 0 and no cap, the claim predicts
`500 ms · 2 ^ 40 + 0 = 549755813888000000000` ns, but the conversion of
the millisecond total to a `time.Duration` overflows `int64` and the
computed interval differs (it is negative). -/
theorem getInterval_overflow_breaks_formula :
    getInterval 500000000 0 40 2 0 ≠ 549755813888000000000 := by decide

/-- Claim C5 (amended): whenever `max_interval > 0` the computed interval
is at most `max_interval`, for *every* input (the clamp runs last); and the
computed interval is nonnegative provided `max_interval ≥ 0` and the
backoff computation does not overflow `int64`.  The original claim's
parenthetical — nonnegativity even when `base_interval · multiplier ^
attempt` exceeds the 64-bit range — is false: under overflow the wrapped
value can be negative (see the counterexample theorem). -/
theorem getInterval_bounds (wi mi : Int) (a m : ℕ) (j : Int) :
    (0 < mi → getInterval wi mi a m j ≤ mi)
    ∧ (0 ≤ mi → 0 ≤ j → j < 1000 → 0 ≤ wi →
       (Duration.milliseconds wi * (m : Int) ^ a + j) * 1000000 < 2 ^ 63 →
       0 ≤ getInterval wi mi a m j) := by
  constructor
  · intro hmi
    simp only [getInterval]
    rw [if_neg (by omega)]
    by_cases hT : wrap64 (wrap64 (wrap64 (Duration.milliseconds wi * mathPowInt64 m a) + j)
        * 1000000) > mi
    · rw [if_pos hT]
    · rw [if_neg hT]
      omega
  · intro hmi hj0 hj hwi hbound
    rw [getInterval_eval wi mi a m j hj0 hj hwi hbound]
    have hms : 0 ≤ Duration.milliseconds wi := Int.tdiv_nonneg hwi (by norm_num)
    have hB : 0 ≤ Duration.milliseconds wi * (m : Int) ^ a :=
      mul_nonneg hms (pow_nonneg (Int.natCast_nonneg m) a)
    have hT : 0 ≤ (Duration.milliseconds wi * (m : Int) ^ a + j) * 1000000 :=
      mul_nonneg (by omega) (by norm_num)
    split_ifs <;> omega

/-- Claim C5 witness: default configuration (base 500 ms, cap 5 s,
multiplier 2), attempt 3, jitter 1: the interval is within `[0, cap]`. -/
theorem getInterval_bounds_witness :
    getInterval 500000000 5000000000 3 2 1 ≤ 5000000000
    ∧ 0 ≤ getInterval 500000000 5000000000 3 2 1 :=
  ⟨(getInterval_bounds 500000000 5000000000 3 2 1).1 (by norm_num),
   (getInterval_bounds 500000000 5000000000 3 2 1).2 (by norm_num) (by norm_num)
     (by norm_num) (by norm_num) (by decide)⟩

/-- Claim C5 counterexample: base 500 ms, multiplier 2, attempt 41,
jitter 5, no cap — `500 · 2 ^ 41` ms exceeds the `int64` nanosecond range,
the computation wraps, and the returned interval is negative. -/
theorem getInterval_overflow_negative : getInterval 500000000 0 41 2 5 < 0 := by decide

/-- Claim C6: `WithBackoffMultiplier` with a multiplier below 2.0 leaves
the client unchanged and reports no error; a multiplier ≥ 2.0 is stored
(and no error is reported either). -/
theorem withBackoffMultiplier_guard (m : ℚ) (c : Client) :
    (m < 2 → WithBackoffMultiplier m c = (c, none))
    ∧ (2 ≤ m → WithBackoffMultiplier m c = ({ c with multiplier := m }, none)) := by
  constructor
  · intro h
    simp only [WithBackoffMultiplier, DefaultBackoffMultiplier, if_pos h]
  · intro h
    simp only [WithBackoffMultiplier, DefaultBackoffMultiplier, if_neg (not_lt.mpr h)]

/-- Claim C6 witness: on the default client, multiplier 1 is ignored
(client unchanged, no error) and multiplier 3 is stored. -/
theorem withBackoffMultiplier_guard_witness :
    WithBackoffMultiplier 1 NewClient = (NewClient, none)
    ∧ WithBackoffMultiplier 3 NewClient = ({ NewClient with multiplier := 3 }, none) :=
  ⟨(withBackoffMultiplier_guard 1 NewClient).1 (by norm_num),
   (withBackoffMultiplier_guard 3 NewClient).2 (by norm_num)⟩

/-- Claim C2: when the context is done before the attempt loop produces a
terminal channel send, `Try`'s `select` takes the `ctx.Done()` arm: it
returns `ctx.Err()` (the cancellation reason) and the fallback function is
not invoked, whether or not one was supplied. -/
theorem try_cancelled_returns_ctx_error (fb : Option (Unit → Option GoErr)) (r : CtxReason) :
    Try true fb (.ctxDone r) = (some (.ctx r), false) := rfl

/-! ## Lemmas about one loop iteration -/

theorem dumpRespEvents_of_debug_false {env : LoopEnv} (hd : env.debug = false) (i : ℕ) :
    dumpRespEvents env i = [] := by
  unfold dumpRespEvents
  rw [hd]
  rfl

theorem cloneBody_events_nil {env : LoopEnv}
    (hgb : ∀ i, env.hasBody = true → ∃ b, env.getBody i = Except.ok b) (i : ℕ) :
    (cloneBody env i).1 = [] := by
  unfold cloneBody
  cases hb : env.hasBody with
  | false => rfl
  | true =>
    obtain ⟨b, h⟩ := hgb i hb
    simp [h]

theorem sendStep_ok_next {env : LoopEnv} {a : Int} {resp : Response}
    (hd : env.debug = false)
    (hcb : (cloneBody env a.toNat).1 = [])
    (htr : env.transport a.toNat (cloneBody env a.toNat).2 = Except.ok resp)
    (hre : (env.readerFunc resp).isSome = true)
    (hne : wrap64 (a + 1) ≠ env.maxRetries) :
    sendStep env a =
      ([.transportCall a.toNat (cloneBody env a.toNat).2, .readerCall a.toNat resp,
        .bodyClose a.toNat ((env.closeErr a.toNat).isSome),
        .timerWait (getInterval env.waitInterval env.maxInterval
          (wrap64 (wrap64 (a + 1) + 1)).toNat env.multiplier (env.jitter a.toNat))],
       .next (wrap64 (a + 1))) := by
  obtain ⟨er, her⟩ := Option.isSome_iff_exists.mp hre
  unfold sendStep
  rw [hd]
  simp only [Bool.false_eq_true, if_false]
  rw [htr]
  simp only [dumpRespEvents_of_debug_false hd, her, if_neg hne, hcb]
  simp

theorem sendStep_ok_exhaust {env : LoopEnv} {a : Int} {resp : Response}
    (hd : env.debug = false)
    (hcb : (cloneBody env a.toNat).1 = [])
    (htr : env.transport a.toNat (cloneBody env a.toNat).2 = Except.ok resp)
    (hre : (env.readerFunc resp).isSome = true)
    (heq : wrap64 (a + 1) = env.maxRetries) :
    sendStep env a =
      ([.transportCall a.toNat (cloneBody env a.toNat).2, .readerCall a.toNat resp,
        .bodyClose a.toNat ((env.closeErr a.toNat).isSome),
        .errSend (.code .maxRetriesReached)],
       .exit (.errSent (.code .maxRetriesReached))) := by
  obtain ⟨er, her⟩ := Option.isSome_iff_exists.mp hre
  unfold sendStep
  rw [hd]
  simp only [Bool.false_eq_true, if_false]
  rw [htr]
  simp only [dumpRespEvents_of_debug_false hd, her, if_pos heq, hcb]
  simp

theorem sendStep_fatal {env : LoopEnv} {a : Int} {e : GoErr}
    (hd : env.debug = false)
    (hcb : (cloneBody env a.toNat).1 = [])
    (htr : env.transport a.toNat (cloneBody env a.toNat).2 = Except.error e) :
    sendStep env a =
      ([.transportCall a.toNat (cloneBody env a.toNat).2, .errSend (mkDoError (a + 1) e)],
       .exit (.errSent (mkDoError (a + 1) e))) := by
  unfold sendStep
  rw [hd]
  simp only [Bool.false_eq_true, if_false]
  rw [htr]
  simp only [hcb]
  simp

/-! ## Lemmas about the loop -/

theorem sendRequestLoop_exit {env : LoopEnv} {a : Int} {evs : List Event} {x : LoopExit}
    (h : sendStep env a = (evs, .exit x)) (fuel : ℕ) :
    sendRequestLoop env (fuel + 1) a = (evs, x) := by
  simp [sendRequestLoop, h]

theorem sendRequestLoop_next {env : LoopEnv} {a : Int} {evs : List Event} {a' : Int}
    (h : sendStep env a = (evs, .next a')) (fuel : ℕ) :
    sendRequestLoop env (fuel + 1) a =
      (evs ++ (sendRequestLoop env fuel a').1, (sendRequestLoop env fuel a').2) := by
  simp [sendRequestLoop, h]

theorem transportCalls_append (l₁ l₂ : List Event) :
    transportCalls (l₁ ++ l₂) = transportCalls l₁ + transportCalls l₂ :=
  List.countP_append ..

theorem firstChannelEvent_append {l₁ l₂ : List Event} (h : firstChannelEvent l₁ = none) :
    firstChannelEvent (l₁ ++ l₂) = firstChannelEvent l₂ := by
  induction l₁ with
  | nil => rfl
  | cons x xs ih =>
    cases x with
    | errSend e => exact absurd h (by simp [firstChannelEvent])
    | resultSend => exact absurd h (by simp [firstChannelEvent])
    | transportCall i b => exact ih (by simpa [firstChannelEvent] using h)
    | readerCall i r => exact ih (by simpa [firstChannelEvent] using h)
    | bodyClose i f => exact ih (by simpa [firstChannelEvent] using h)
    | timerWait d => exact ih (by simpa [firstChannelEvent] using h)

/-- In a run whose transport always answers and whose reader always asks
for a retry (debug off, body reproducible), starting from attempt counter
`a < maxRetries`, the loop performs exactly `maxRetries - a` further
transport invocations, terminates by sending `ErrMaxRetriesReached`, and
that send is the first channel event of the remaining trace. -/
theorem run_exhausts (env : LoopEnv)
    (hd : env.debug = false)
    (hgb : ∀ i, env.hasBody = true → ∃ b, env.getBody i = Except.ok b)
    (ht : ∀ i b, ∃ resp, env.transport i b = Except.ok resp)
    (hr : ∀ resp, (env.readerFunc resp).isSome = true)
    (hmr : env.maxRetries < 2 ^ 63) :
    ∀ (fuel : ℕ) (a : Int), 0 ≤ a → a < env.maxRetries →
      (env.maxRetries - a).toNat ≤ fuel →
      transportCalls (sendRequestLoop env fuel a).1 = (env.maxRetries - a).toNat ∧
      (sendRequestLoop env fuel a).2 = .errSent (.code .maxRetriesReached) ∧
      firstChannelEvent (sendRequestLoop env fuel a).1 =
        some (.errReceived (.code .maxRetriesReached)) := by
  intro fuel
  induction fuel with
  | zero => intro a h0 ha hf; exfalso; omega
  | succ n ih =>
    intro a h0 ha hf
    have hw : wrap64 (a + 1) = a + 1 := wrap64_eq_self (by omega) (by omega)
    obtain ⟨resp, htr⟩ := ht a.toNat (cloneBody env a.toNat).2
    by_cases hcase : a + 1 = env.maxRetries
    · have hstep := sendStep_ok_exhaust hd (cloneBody_events_nil hgb a.toNat) htr (hr resp)
        (hw.trans hcase)
      rw [sendRequestLoop_exit hstep n]
      refine ⟨?_, rfl, rfl⟩
      have hc : transportCalls [Event.transportCall a.toNat (cloneBody env a.toNat).2,
          .readerCall a.toNat resp, .bodyClose a.toNat ((env.closeErr a.toNat).isSome),
          .errSend (.code .maxRetriesReached)] = 1 := by
        simp [transportCalls, isTransportCall]
      rw [hc]
      omega
    · have hne : wrap64 (a + 1) ≠ env.maxRetries := fun h => hcase (hw ▸ h)
      have hstep := sendStep_ok_next hd (cloneBody_events_nil hgb a.toNat) htr (hr resp) hne
      rw [hw] at hstep
      rw [sendRequestLoop_next hstep n]
      obtain ⟨ih1, ih2, ih3⟩ := ih (a + 1) (by omega) (by omega) (by omega)
      refine ⟨?_, ih2, ?_⟩
      · rw [transportCalls_append, ih1]
        have hc : transportCalls [Event.transportCall a.toNat (cloneBody env a.toNat).2,
            .readerCall a.toNat resp, .bodyClose a.toNat ((env.closeErr a.toNat).isSome),
            .timerWait (getInterval env.waitInterval env.maxInterval
              (wrap64 (a + 1 + 1)).toNat env.multiplier (env.jitter a.toNat))] = 1 := by
          simp [transportCalls, isTransportCall]
        rw [hc]
        omega
      · exact ih3

/-- With a non-positive `maxRetries`, an always-answering transport and an
always-retrying reader, the loop does not terminate: the attempt counter
starts at 0 and increments past the bound, so (within the first `2^63 - 1`
iterations, i.e. before the `int` counter could ever wrap) the exhaustion
exit is never taken and no other exit applies. -/
theorem run_never_exhausts (env : LoopEnv)
    (hd : env.debug = false)
    (hgb : ∀ i, env.hasBody = true → ∃ b, env.getBody i = Except.ok b)
    (ht : ∀ i b, ∃ resp, env.transport i b = Except.ok resp)
    (hr : ∀ resp, (env.readerFunc resp).isSome = true)
    (hmr : env.maxRetries ≤ 0) :
    ∀ (fuel : ℕ) (a : Int), 0 ≤ a → a + (fuel : Int) ≤ 2 ^ 63 - 1 →
      (sendRequestLoop env fuel a).2 = .fuelOut := by
  intro fuel
  induction fuel with
  | zero => intro a h0 hb; rfl
  | succ n ih =>
    intro a h0 hb
    have hn : a + ((n : Int) + 1) ≤ 2 ^ 63 - 1 := by push_cast at hb ⊢; omega
    have hw : wrap64 (a + 1) = a + 1 := wrap64_eq_self (by omega) (by omega)
    have hne : wrap64 (a + 1) ≠ env.maxRetries := by rw [hw]; omega
    obtain ⟨resp, htr⟩ := ht a.toNat (cloneBody env a.toNat).2
    have hstep := sendStep_ok_next hd (cloneBody_events_nil hgb a.toNat) htr (hr resp) hne
    rw [hw] at hstep
    rw [sendRequestLoop_next hstep n]
    exact ih (a + 1) (by omega) (by push_cast at hb ⊢; omega)

/-- If the first `k` attempts see a response and a retry verdict and the
transport fails on attempt `k` (0-based), the loop terminates there with
the wrapped `ErrUnexpected` fatal error after exactly `k + 1 - a` further
transport invocations (starting from attempt counter `a ≤ k`), provided no
intermediate counter value hits `maxRetries`. -/
theorem run_fatal (env : LoopEnv) (k : ℕ) (e : GoErr)
    (hd : env.debug = false)
    (hgb : ∀ i, env.hasBody = true → ∃ b, env.getBody i = Except.ok b)
    (hr : ∀ resp, (env.readerFunc resp).isSome = true)
    (htok : ∀ i b, i < k → ∃ resp, env.transport i b = Except.ok resp)
    (hterr : ∀ b, env.transport k b = Except.error e)
    (hreach : ∀ j : ℕ, 0 < j → j ≤ k → (j : Int) ≠ env.maxRetries)
    (hk : (k : Int) < 2 ^ 63 - 1) :
    ∀ (fuel : ℕ) (a : ℕ), a ≤ k → k + 1 - a ≤ fuel →
      transportCalls (sendRequestLoop env fuel (a : Int)).1 = k + 1 - a ∧
      (sendRequestLoop env fuel (a : Int)).2 = .errSent (mkDoError ((k : Int) + 1) e) ∧
      firstChannelEvent (sendRequestLoop env fuel (a : Int)).1 =
        some (.errReceived (mkDoError ((k : Int) + 1) e)) := by
  intro fuel
  induction fuel with
  | zero => intro a ha hf; exfalso; omega
  | succ n ih =>
    intro a ha hf
    have hta : ((a : Int)).toNat = a := Int.toNat_natCast a
    by_cases hak : a = k
    · subst hak
      have htr : env.transport ((a : Int)).toNat (cloneBody env ((a : Int)).toNat).2
          = Except.error e := by rw [hta]; exact hterr _
      have hstep := sendStep_fatal hd (cloneBody_events_nil hgb _) htr
      rw [sendRequestLoop_exit hstep n]
      refine ⟨?_, rfl, rfl⟩
      have hc : transportCalls [Event.transportCall ((a : Int)).toNat
          (cloneBody env ((a : Int)).toNat).2,
          .errSend (mkDoError ((a : Int) + 1) e)] = 1 := by
        simp [transportCalls, isTransportCall]
      rw [hc]
      omega
    · have halt : a < k := lt_of_le_of_ne ha hak
      obtain ⟨resp, htr0⟩ := htok a (cloneBody env ((a : Int)).toNat).2 halt
      have htr : env.transport ((a : Int)).toNat (cloneBody env ((a : Int)).toNat).2
          = Except.ok resp := by rw [hta]; exact htr0
      have hw : wrap64 ((a : Int) + 1) = (a : Int) + 1 := wrap64_eq_self (by omega) (by omega)
      have hne : wrap64 ((a : Int) + 1) ≠ env.maxRetries := by
        rw [hw]
        have := hreach (a + 1) (by omega) (by omega)
        push_cast at this ⊢
        omega
      have hstep := sendStep_ok_next hd (cloneBody_events_nil hgb _) htr (hr resp) hne
      rw [hw] at hstep
      have hcast : (a : Int) + 1 = ((a + 1 : ℕ) : Int) := by push_cast; ring
      rw [hcast] at hstep
      rw [sendRequestLoop_next hstep n]
      obtain ⟨ih1, ih2, ih3⟩ := ih (a + 1) (by omega) (by omega)
      refine ⟨?_, ih2, ?_⟩
      · rw [transportCalls_append, ih1]
        have hc : transportCalls [Event.transportCall ((a : Int)).toNat
            (cloneBody env ((a : Int)).toNat).2,
            .readerCall ((a : Int)).toNat resp,
            .bodyClose ((a : Int)).toNat ((env.closeErr ((a : Int)).toNat).isSome),
            .timerWait (getInterval env.waitInterval env.maxInterval
              (wrap64 (((a + 1 : ℕ) : Int) + 1)).toNat env.multiplier
              (env.jitter ((a : Int)).toNat))] = 1 := by
          simp [transportCalls, isTransportCall]
        rw [hc]
        omega
      · exact ih3

/-! ## The retry-exhaustion and fatal-error claims -/

/-- Claim C1: on a client configured with max retries 4, if the transport
returns a response on every attempt and the reader function returns a
non-nil error on every attempt (with the debug dumps off and any request
body reproducible, so that no unrelated error send interferes), then the
loop performs exactly 4 transport invocations and its first and terminal
channel send is `ErrMaxRetriesReached`; `Try` then returns
`ErrMaxRetriesReached` when no fallback was supplied, and the fallback's
result when one was. -/
theorem try_always_retry_exhausts_after_four_attempts (env : LoopEnv) (fuel : ℕ)
    (hmr : env.maxRetries = 4)
    (hd : env.debug = false)
    (hgb : ∀ i, env.hasBody = true → ∃ b, env.getBody i = Except.ok b)
    (ht : ∀ i b, ∃ resp, env.transport i b = Except.ok resp)
    (hr : ∀ resp, (env.readerFunc resp).isSome = true)
    (hfuel : 4 ≤ fuel) :
    transportCalls (sendRequest env fuel).1 = 4 ∧
    (sendRequest env fuel).2 = .errSent (.code .maxRetriesReached) ∧
    firstChannelEvent (sendRequest env fuel).1 =
      some (.errReceived (.code .maxRetriesReached)) ∧
    Try true none (.errReceived (.code .maxRetriesReached))
      = (some (.code .maxRetriesReached), false) ∧
    ∀ g : Unit → Option GoErr,
      Try true (some g) (.errReceived (.code .maxRetriesReached)) = (g (), true) := by
  have h := run_exhausts env hd hgb ht hr (by omega) fuel 0 le_rfl (by omega) (by omega)
  have h4 : (env.maxRetries - 0).toNat = 4 := by omega
  rw [h4] at h
  exact ⟨h.1, h.2.1, h.2.2, rfl, fun g => rfl⟩

/-- Claim C9: `WithMaxRetries` stores any value, including non-positive
ones, without validation or error; and with `maxRetries ≤ 0`, an
always-answering transport and an always-retrying reader, the attempt
loop never terminates: the counter starts at 0 and increments past the
non-positive bound, so the exhaustion exit `attempt == maxRetries` is
never taken (stated for every iteration bound below `2^63 - 1`, i.e. for
as long as the Go `int` counter cannot have wrapped). -/
theorem nonpositive_max_retries_never_exhausts (env : LoopEnv) (fuel : ℕ)
    (hmr : env.maxRetries ≤ 0)
    (hd : env.debug = false)
    (hgb : ∀ i, env.hasBody = true → ∃ b, env.getBody i = Except.ok b)
    (ht : ∀ i b, ∃ resp, env.transport i b = Except.ok resp)
    (hr : ∀ resp, (env.readerFunc resp).isSome = true)
    (hfuel : (fuel : Int) ≤ 2 ^ 63 - 1) :
    (sendRequest env fuel).2 = .fuelOut ∧
    (WithMaxRetries env.maxRetries NewClient).1.maxRetries = env.maxRetries ∧
    (WithMaxRetries env.maxRetries NewClient).2 = none :=
  ⟨run_never_exhausts env hd hgb ht hr hmr fuel 0 le_rfl (by omega), rfl, rfl⟩

/-- Claim C3: if the first `k` attempts complete with a retry verdict and
the transport call itself fails on attempt `k` (0-based; `k = 0` covers a
failure on the very first attempt with no constraint on `maxRetries`),
the loop stops immediately with the wrapped fatal `ErrUnexpected` error:
exactly `k + 1` transport invocations happen in total, no retry of the
failed attempt is performed, and `Try` returns that fatal error when no
fallback was supplied, or the fallback's result — exactly as on
exhaustion — when one was. -/
theorem transport_failure_is_fatal (env : LoopEnv) (k : ℕ) (e : GoErr) (fuel : ℕ)
    (g : Unit → Option GoErr)
    (hd : env.debug = false)
    (hgb : ∀ i, env.hasBody = true → ∃ b, env.getBody i = Except.ok b)
    (hr : ∀ resp, (env.readerFunc resp).isSome = true)
    (htok : ∀ i b, i < k → ∃ resp, env.transport i b = Except.ok resp)
    (hterr : ∀ b, env.transport k b = Except.error e)
    (hreach : ∀ j : ℕ, 0 < j → j ≤ k → (j : Int) ≠ env.maxRetries)
    (hk : (k : Int) < 2 ^ 63 - 1)
    (hfuel : k + 1 ≤ fuel) :
    transportCalls (sendRequest env fuel).1 = k + 1 ∧
    (sendRequest env fuel).2 = .errSent (mkDoError ((k : Int) + 1) e) ∧
    firstChannelEvent (sendRequest env fuel).1 =
      some (.errReceived (mkDoError ((k : Int) + 1) e)) ∧
    Try true none (.errReceived (mkDoError ((k : Int) + 1) e))
      = (some (mkDoError ((k : Int) + 1) e), false) ∧
    Try true (some g) (.errReceived (mkDoError ((k : Int) + 1) e)) = (g (), true) := by
  have h := run_fatal env k e hd hgb hr htok hterr hreach hk fuel 0 (by omega) (by omega)
  have h0 : ((0 : ℕ) : Int) = 0 := rfl
  rw [h0] at h
  exact ⟨by simpa using h.1, h.2.1, h.2.2, rfl, rfl⟩

/-! ## The cancellation claims -/

/-- Claim C7 counterexample: the claim says that once the context is done,
no further transport attempts are started, because the inter-attempt wait
is interruptible.  In the code the wait is `<-time.NewTimer(...).C`, a
fixed timer receive that never observes the context, and the loop checks
no cancellation signal; modelling a context cancelled during the first
backoff wait (`envCancelled`: attempt 0 answers normally, and from
attempt 1 on the transport sees the cancelled context of the cloned
request and fails with it), the loop still starts a second transport
invocation after the cancellation — 2 calls, where the claim predicts 1. -/
theorem loop_starts_attempt_after_cancellation :
    transportCalls (sendRequest envCancelled 10).1 = 2 := by decide

/-- Claim C7 (amended): cancellation unblocks the caller — when the
context wins the race, `Try` returns `ctx.Err()` — but the attempt loop
itself does not observe the token: its inter-attempt wait is a fixed
timer, so after a cancellation during the backoff wait following attempt
`k` the loop still starts attempt `k + 1`; in the consolidated client
that attempt's transport call fails with the context error carried by the
cloned request, and only this failure (not the token) terminates the
loop, after `k + 2` transport invocations in total. -/
theorem cancellation_unblocks_caller_but_loop_continues (env : LoopEnv) (k : ℕ)
    (r : CtxReason) (fb : Option (Unit → Option GoErr)) (fuel : ℕ)
    (hd : env.debug = false)
    (hgb : ∀ i, env.hasBody = true → ∃ b, env.getBody i = Except.ok b)
    (hr : ∀ resp, (env.readerFunc resp).isSome = true)
    (htok : ∀ i b, i ≤ k → ∃ resp, env.transport i b = Except.ok resp)
    (hterr : ∀ b, env.transport (k + 1) b = Except.error (.ctx r))
    (hreach : ∀ j : ℕ, 0 < j → j ≤ k + 1 → (j : Int) ≠ env.maxRetries)
    (hk : (k : Int) + 1 < 2 ^ 63 - 1)
    (hfuel : k + 2 ≤ fuel) :
    (Try true fb (.ctxDone r)).1 = some (.ctx r) ∧
    transportCalls (sendRequest env fuel).1 = k + 2 ∧
    (sendRequest env fuel).2 = .errSent (mkDoError ((k : Int) + 2) (.ctx r)) := by
  have h := run_fatal env (k + 1) (.ctx r) hd hgb hr
    (fun i b hi => htok i b (by omega)) hterr
    (fun j hj hjk => hreach j hj (by omega)) (by push_cast; omega) fuel 0 (by omega) (by omega)
  have h0 : ((0 : ℕ) : Int) = 0 := rfl
  rw [h0] at h
  have hcast : ((k + 1 : ℕ) : Int) + 1 = (k : Int) + 2 := by push_cast; ring
  rw [hcast] at h
  refine ⟨by cases fb <;> rfl, by simpa using h.1, h.2.1⟩

/-! ## The GetBody-error claim -/

/-- On iteration 0, when the request has a body and `req.GetBody()` fails,
the step's trace starts with the `ErrUnexpected` send immediately followed
by a transport call carrying the nil body: the loop did not return after
reporting the error. -/
theorem sendStep_getBody_error_prefix (env : LoopEnv) (e : GoErr)
    (hd : env.debug = false) (hb : env.hasBody = true)
    (hgb : env.getBody 0 = Except.error e) :
    ∃ rest res, sendStep env 0
      = (Event.errSend (mkUnexpected e) :: Event.transportCall 0 none :: rest, res) := by
  have hcb : cloneBody env 0 = ([Event.errSend (mkUnexpected e)], none) := by
    unfold cloneBody
    rw [hb, hgb]
    rfl
  unfold sendStep
  rw [hd]
  simp only [Bool.false_eq_true, if_false, Int.toNat_zero, hcb]
  rcases htr : env.transport 0 none with e2 | resp
  · exact ⟨_, _, rfl⟩
  · dsimp only
    rcases her : env.readerFunc resp with _ | er
    · exact ⟨_, _, rfl⟩
    · by_cases hmr : wrap64 (0 + 1) = env.maxRetries
      · rw [if_pos hmr]
        exact ⟨_, _, rfl⟩
      · rw [if_neg hmr]
        exact ⟨_, _, rfl⟩

/-- Claim C10: in the consolidated client, when the request has a body and
`req.GetBody` fails while preparing the attempt's fresh body copy,
`sendRequest` sends `ErrUnexpected` on the error channel but does not
return: it assigns the nil body to the cloned request and still invokes
the transport for that attempt — the trace of the run starts with the
error send immediately followed by the transport call with body `none`. -/
theorem getBody_error_reported_but_attempt_proceeds (env : LoopEnv) (e : GoErr) (fuel : ℕ)
    (hd : env.debug = false) (hb : env.hasBody = true)
    (hgb : env.getBody 0 = Except.error e) (hfuel : 1 ≤ fuel) :
    (sendRequest env fuel).1.take 2
      = [Event.errSend (mkUnexpected e), Event.transportCall 0 none] := by
  obtain ⟨f, rfl⟩ : ∃ f, fuel = f + 1 := ⟨fuel - 1, by omega⟩
  obtain ⟨rest, res, hstep⟩ := sendStep_getBody_error_prefix env e hd hb hgb
  unfold sendRequest
  cases res with
  | exit x =>
    rw [sendRequestLoop_exit hstep f]
    rfl
  | next a =>
    rw [sendRequestLoop_next hstep f]
    rfl

/-! ## The response-body-close claim -/

theorem cloneBody_events_shape (env : LoopEnv) (i : ℕ) :
    (cloneBody env i).1 = [] ∨ ∃ e, (cloneBody env i).1 = [Event.errSend e] := by
  unfold cloneBody
  cases hb : env.hasBody with
  | false => exact Or.inl rfl
  | true =>
    rcases hg : env.getBody i with eb | b
    · exact Or.inr ⟨mkUnexpected eb, by simp⟩
    · exact Or.inl (by simp)

theorem dumpRespEvents_shape (env : LoopEnv) (i : ℕ) :
    dumpRespEvents env i = [] ∨ ∃ e, dumpRespEvents env i = [Event.errSend e] := by
  unfold dumpRespEvents
  cases hd : env.debug with
  | false => exact Or.inl rfl
  | true =>
    rcases hg : env.dumpRespErr i with _ | e
    · exact Or.inl (by simp)
    · exact Or.inr ⟨mkUnexpected e, by simp⟩

/-- Membership of a `readerCall` in one iteration's block forces it to be
that iteration's reader call, which the block pairs with the matching
`bodyClose`. -/
theorem readerCall_mem_block {env : LoopEnv} {a : Int} {i : ℕ} {resp resp' : Response}
    (tail : Event)
    (h : Event.readerCall i resp ∈
      (cloneBody env a.toNat).1 ++ [Event.transportCall a.toNat (cloneBody env a.toNat).2]
        ++ dumpRespEvents env a.toNat
        ++ [Event.readerCall a.toNat resp',
            Event.bodyClose a.toNat ((env.closeErr a.toNat).isSome)]
        ++ [tail])
    (htail : ∀ j r, tail ≠ Event.readerCall j r) :
    [Event.readerCall i resp, Event.bodyClose i ((env.closeErr i).isSome)] <:+:
      (cloneBody env a.toNat).1 ++ [Event.transportCall a.toNat (cloneBody env a.toNat).2]
        ++ dumpRespEvents env a.toNat
        ++ [Event.readerCall a.toNat resp',
            Event.bodyClose a.toNat ((env.closeErr a.toNat).isSome)]
        ++ [tail] := by
  have hieq : i = a.toNat ∧ resp = resp' := by
    rcases cloneBody_events_shape env a.toNat with hcb | ⟨eb, hcb⟩ <;>
      rcases dumpRespEvents_shape env a.toNat with hdr | ⟨ed, hdr⟩ <;>
      rw [hcb, hdr] at h <;> simp at h <;>
      (rcases h with h | h
       · exact h
       · exact (htail i resp h.symm).elim)
  obtain ⟨rfl, rfl⟩ := hieq
  exact ⟨(cloneBody env a.toNat).1 ++ [Event.transportCall a.toNat (cloneBody env a.toNat).2]
      ++ dumpRespEvents env a.toNat, [tail], by simp⟩

/-- In any single iteration whose trace mentions `readerCall i resp`, that
event is immediately followed by the `bodyClose` of the same iteration,
with the failure flag given by that iteration's `Close` result. -/
theorem sendStep_readerCall_infix {env : LoopEnv} {a : Int} {i : ℕ} {resp : Response}
    (h : Event.readerCall i resp ∈ (sendStep env a).1) :
    [Event.readerCall i resp, Event.bodyClose i ((env.closeErr i).isSome)]
      <:+: (sendStep env a).1 := by
  unfold sendStep at h ⊢
  dsimp only at h ⊢
  rcases h1 : (if env.debug = true then env.dumpReqErr a.toNat else none) with _ | e1
  case some =>
    rw [h1] at h
    simp at h
  rw [h1] at h
  dsimp only at h ⊢
  rcases htr : env.transport a.toNat (cloneBody env a.toNat).2 with e2 | resp'
  · rw [htr] at h
    dsimp only at h
    rcases cloneBody_events_shape env a.toNat with hcb | ⟨eb, hcb⟩ <;> rw [hcb] at h <;>
      simp at h
  · rw [htr] at h
    dsimp only at h ⊢
    rcases her : env.readerFunc resp' with _ | er
    · rw [her] at h
      dsimp only at h ⊢
      simpa using readerCall_mem_block .resultSend h (fun j r => nofun)
    · rw [her] at h
      dsimp only at h ⊢
      by_cases hmr : wrap64 (a + 1) = env.maxRetries
      · rw [if_pos hmr] at h ⊢
        dsimp only at h ⊢
        simpa using readerCall_mem_block (.errSend (.code .maxRetriesReached)) h
          (fun j r => nofun)
      · rw [if_neg hmr] at h ⊢
        dsimp only at h ⊢
        simpa using readerCall_mem_block (.timerWait (getInterval env.waitInterval
          env.maxInterval (wrap64 (wrap64 (a + 1) + 1)).toNat env.multiplier
          (env.jitter a.toNat))) h (fun j r => nofun)

/-- Whenever an iteration's trace mentions a `readerCall`, the matching
`bodyClose` immediately follows it in the whole run's trace. -/
theorem run_readerCall_infix (env : LoopEnv) :
    ∀ (fuel : ℕ) (a : Int) (i : ℕ) (resp : Response),
      Event.readerCall i resp ∈ (sendRequestLoop env fuel a).1 →
      [Event.readerCall i resp, Event.bodyClose i ((env.closeErr i).isSome)]
        <:+: (sendRequestLoop env fuel a).1 := by
  intro fuel
  induction fuel with
  | zero => intro a i resp h; simp [sendRequestLoop] at h
  | succ n ih =>
    intro a i resp h
    rcases hstep : sendStep env a with ⟨evs, res⟩
    cases res with
    | exit x =>
      rw [sendRequestLoop_exit hstep n] at h ⊢
      have h2 := sendStep_readerCall_infix
        (show Event.readerCall i resp ∈ (sendStep env a).1 by rw [hstep]; exact h)
      rw [hstep] at h2
      exact h2
    | next a2 =>
      rw [sendRequestLoop_next hstep n] at h ⊢
      dsimp only at h ⊢
      rcases List.mem_append.mp h with h1 | h2
      · have h3 := sendStep_readerCall_infix
          (show Event.readerCall i resp ∈ (sendStep env a).1 by rw [hstep]; exact h1)
        rw [hstep] at h3
        dsimp only at h3
        obtain ⟨s, t, hst⟩ := h3
        refine ⟨s, t ++ (sendRequestLoop env n a2).1, ?_⟩
        rw [← hst]
        simp
      · obtain ⟨s, t, hst⟩ := ih a2 i resp h2
        refine ⟨evs ++ s, t, ?_⟩
        rw [← hst]
        simp

/-- One iteration's outcome and (up to the recorded close-failure flags)
its trace do not depend on the results of `resp.Body.Close()`. -/
theorem sendStep_closeErr (env : LoopEnv) (ce' : ℕ → Option GoErr) (a : Int) :
    (sendStep { env with closeErr := ce' } a).1.map scrubClose
      = (sendStep env a).1.map scrubClose
    ∧ (sendStep { env with closeErr := ce' } a).2 = (sendStep env a).2 := by
  unfold sendStep
  dsimp only
  simp only [show ({ env with closeErr := ce' } : LoopEnv).debug = env.debug from rfl,
    show ({ env with closeErr := ce' } : LoopEnv).dumpReqErr = env.dumpReqErr from rfl,
    show ({ env with closeErr := ce' } : LoopEnv).transport = env.transport from rfl,
    show ({ env with closeErr := ce' } : LoopEnv).readerFunc = env.readerFunc from rfl,
    show ({ env with closeErr := ce' } : LoopEnv).maxRetries = env.maxRetries from rfl,
    show ({ env with closeErr := ce' } : LoopEnv).waitInterval = env.waitInterval from rfl,
    show ({ env with closeErr := ce' } : LoopEnv).maxInterval = env.maxInterval from rfl,
    show ({ env with closeErr := ce' } : LoopEnv).multiplier = env.multiplier from rfl,
    show ({ env with closeErr := ce' } : LoopEnv).jitter = env.jitter from rfl,
    show ({ env with closeErr := ce' } : LoopEnv).closeErr = ce' from rfl,
    show cloneBody { env with closeErr := ce' } = cloneBody env from rfl,
    show dumpRespEvents { env with closeErr := ce' } = dumpRespEvents env from rfl]
  rcases h1 : (if env.debug = true then env.dumpReqErr a.toNat else none) with _ | e1
  · dsimp only
    rcases htr : env.transport a.toNat (cloneBody env a.toNat).2 with e2 | resp
    · exact ⟨rfl, rfl⟩
    · dsimp only
      rcases her : env.readerFunc resp with _ | er
      · dsimp only
        exact ⟨by simp [scrubClose], by trivial⟩
      · dsimp only
        by_cases hmr2 : wrap64 (a + 1) = env.maxRetries
        · simp only [if_pos hmr2]
          exact ⟨by simp [scrubClose], by trivial⟩
        · simp only [if_neg hmr2]
          exact ⟨by simp [scrubClose], by trivial⟩
  · exact ⟨rfl, rfl⟩

/-- The whole run's outcome and scrubbed trace do not depend on the
results of `resp.Body.Close()`. -/
theorem run_closeErr (env : LoopEnv) (ce' : ℕ → Option GoErr) :
    ∀ (fuel : ℕ) (a : Int),
      (sendRequestLoop { env with closeErr := ce' } fuel a).1.map scrubClose
        = (sendRequestLoop env fuel a).1.map scrubClose
      ∧ (sendRequestLoop { env with closeErr := ce' } fuel a).2
        = (sendRequestLoop env fuel a).2 := by
  intro fuel
  induction fuel with
  | zero => intro a; exact ⟨rfl, rfl⟩
  | succ n ih =>
    intro a
    obtain ⟨hmap, hres⟩ := sendStep_closeErr env ce' a
    rcases hstep : sendStep env a with ⟨evs, res⟩
    rcases hstep2 : sendStep { env with closeErr := ce' } a with ⟨evs2, res2⟩
    rw [hstep, hstep2] at hmap hres
    dsimp only at hmap hres
    subst hres
    cases res2 with
    | exit x =>
      rw [sendRequestLoop_exit hstep n, sendRequestLoop_exit hstep2 n]
      exact ⟨hmap, rfl⟩
    | next a2 =>
      rw [sendRequestLoop_next hstep n, sendRequestLoop_next hstep2 n]
      obtain ⟨ih1, ih2⟩ := ih a2
      refine ⟨?_, ih2⟩
      dsimp only
      rw [List.map_append, List.map_append, hmap, ih1]

/-- Scrubbing the close-failure flags does not change which channel send
comes first. -/
theorem firstChannelEvent_map_scrub (l : List Event) :
    firstChannelEvent (l.map scrubClose) = firstChannelEvent l := by
  induction l with
  | nil => rfl
  | cons x xs ih => cases x <;> simp [scrubClose, firstChannelEvent, ih]

/-- Claim C8: after every attempt in which the transport returned a
response, the response body is closed immediately after the reader
function has run (the two events are adjacent in the trace, whatever the
reader's verdict was), and the result of the close never changes what the
caller sees: replacing the per-attempt `Close` results by any others
leaves the loop's exit and the first channel event — hence the value
`Try` returns — unchanged (a close failure is only printed through the
debug channel). -/
theorem body_close_after_reader_never_escalated (env : LoopEnv) (ce' : ℕ → Option GoErr)
    (fuel : ℕ) (i : ℕ) (resp : Response)
    (hmem : Event.readerCall i resp ∈ (sendRequest env fuel).1) :
    (sendRequest { env with closeErr := ce' } fuel).2 = (sendRequest env fuel).2
    ∧ firstChannelEvent (sendRequest { env with closeErr := ce' } fuel).1
        = firstChannelEvent (sendRequest env fuel).1
    ∧ [Event.readerCall i resp, Event.bodyClose i ((env.closeErr i).isSome)]
        <:+: (sendRequest env fuel).1 := by
  obtain ⟨h1, h2⟩ := run_closeErr env ce' fuel 0
  unfold sendRequest
  exact ⟨h2, by rw [← firstChannelEvent_map_scrub, h1, firstChannelEvent_map_scrub],
    run_readerCall_infix env fuel 0 i resp hmem⟩

/-! ## Witnesses -/

/-- Claim C1 witness: `envAlwaysRetry` (max retries 4, transport always
answers 200, reader always errors), fuel 10. -/
theorem try_always_retry_exhausts_after_four_attempts_witness :
    transportCalls (sendRequest envAlwaysRetry 10).1 = 4 ∧
    (sendRequest envAlwaysRetry 10).2 = .errSent (.code .maxRetriesReached) ∧
    firstChannelEvent (sendRequest envAlwaysRetry 10).1 =
      some (.errReceived (.code .maxRetriesReached)) ∧
    Try true none (.errReceived (.code .maxRetriesReached))
      = (some (.code .maxRetriesReached), false) ∧
    Try true (some (fun _ => some (.external 2))) (.errReceived (.code .maxRetriesReached))
      = (some (.external 2), true) := by
  have h := try_always_retry_exhausts_after_four_attempts envAlwaysRetry 10 rfl rfl
    (fun i hi => absurd hi (by decide)) (fun i b => ⟨200, rfl⟩) (fun resp => rfl) (by omega)
  exact ⟨h.1, h.2.1, h.2.2.1, h.2.2.2.1, h.2.2.2.2 _⟩

/-- Claim C3 witness: `envFatalFirst` (transport fails on the very first
attempt), fuel 5, fallback returning `external 2`. -/
theorem transport_failure_is_fatal_witness :
    transportCalls (sendRequest envFatalFirst 5).1 = 1 ∧
    (sendRequest envFatalFirst 5).2 = .errSent (mkDoError 1 (.external 7)) ∧
    firstChannelEvent (sendRequest envFatalFirst 5).1 =
      some (.errReceived (mkDoError 1 (.external 7))) ∧
    Try true none (.errReceived (mkDoError 1 (.external 7)))
      = (some (mkDoError 1 (.external 7)), false) ∧
    Try true (some (fun _ => some (.external 2))) (.errReceived (mkDoError 1 (.external 7)))
      = (some (.external 2), true) := by
  have h := transport_failure_is_fatal envFatalFirst 0 (.external 7) 5
    (fun _ => some (.external 2)) rfl (fun i hi => absurd hi (by decide)) (fun resp => rfl)
    (fun i b hi => absurd hi (by omega)) (fun b => rfl)
    (fun j hj hj0 => by omega) (by norm_num) (by omega)
  simpa using h

/-- Claim C7 amended-theorem witness: `envCancelled` (cancellation during
the first backoff wait), fuel 10. -/
theorem cancellation_unblocks_caller_but_loop_continues_witness :
    (Try true none (.ctxDone .canceled)).1 = some (.ctx .canceled) ∧
    transportCalls (sendRequest envCancelled 10).1 = 2 ∧
    (sendRequest envCancelled 10).2 = .errSent (mkDoError 2 (.ctx .canceled)) := by
  have h := cancellation_unblocks_caller_but_loop_continues envCancelled 0 .canceled none 10
    rfl (fun i hi => absurd hi (by decide)) (fun resp => rfl)
    (fun i b hi => by
      have hi0 : i = 0 := by omega
      subst hi0
      exact ⟨200, rfl⟩)
    (fun b => rfl)
    (fun j hj hj1 => by
      have hmr4 : envCancelled.maxRetries = 4 := rfl
      omega)
    (by norm_num) (by omega)
  simpa using h

/-- Claim C8 witness: `envCloseFail` (the body close fails on attempt 0),
fuel 2: the reader ran on attempt 0, the failing close follows it at once,
and replacing all close results by successes changes neither the run's
outcome nor the first channel event. -/
theorem body_close_after_reader_never_escalated_witness :
    (sendRequest { envCloseFail with closeErr := fun _ => none } 2).2
      = (sendRequest envCloseFail 2).2
    ∧ firstChannelEvent (sendRequest { envCloseFail with closeErr := fun _ => none } 2).1
        = firstChannelEvent (sendRequest envCloseFail 2).1
    ∧ [Event.readerCall 0 200, Event.bodyClose 0 ((envCloseFail.closeErr 0).isSome)]
        <:+: (sendRequest envCloseFail 2).1 :=
  body_close_after_reader_never_escalated envCloseFail (fun _ => none) 2 0 200 (by decide)

/-- Claim C9 witness: `envZeroRetries` (max retries 0 as stored by
`WithMaxRetries(0)`), fuel 10: the loop is still running, and
`WithMaxRetries` accepted the 0 without an error. -/
theorem nonpositive_max_retries_never_exhausts_witness :
    (sendRequest envZeroRetries 10).2 = .fuelOut ∧
    (WithMaxRetries envZeroRetries.maxRetries NewClient).1.maxRetries
      = envZeroRetries.maxRetries ∧
    (WithMaxRetries envZeroRetries.maxRetries NewClient).2 = none :=
  nonpositive_max_retries_never_exhausts envZeroRetries 10 (by decide) rfl
    (fun i hi => absurd hi (by decide)) (fun i b => ⟨200, rfl⟩) (fun resp => rfl) (by decide)

/-- Claim C10 witness: `envBodyErr` (`GetBody` fails on every attempt),
fuel 1: the trace starts with the `ErrUnexpected` send followed by the
transport call with the nil body. -/
theorem getBody_error_reported_but_attempt_proceeds_witness :
    (sendRequest envBodyErr 1).1.take 2
      = [Event.errSend (mkUnexpected (.external 3)), Event.transportCall 0 none] :=
  getBody_error_reported_but_attempt_proceeds envBodyErr (.external 3) 1 rfl rfl rfl le_rfl

end Hardy
